import Mathlib

/-!
Shallow embedding of the SmartWallet transaction-classification pipeline
(`src/ai_engine.py`: `AIManager._try_local_rules`, `AIManager._core_process`)
and of the persistence-side validators (`src/utils.py`:
`DomainValidators.normalize_type`, `validate_amount`, `validate_date`;
`src/services/transaction_service.py`: `TransactionService.register_transaction`).

Strings are Lean `String`s; Python string primitives (`lower`, `strip`,
`capitalize`, `title`, substring `in`) are modelled on the character lists,
with case folding covering ASCII plus the accented Latin letters that occur
in the program's keyword tables.  Machine floats are modelled as `ℚ`; the
numeric strings handled here (digits with one `.`/`,` separator, optional
sign and exponent) are represented exactly, so no rounding is lost.
The remote generative-model call is an external effect and is abstracted
as an environment `String → ModelOutcome` mapping a model name to what the
attempt produced (an exception, or a response whose JSON extraction gave
`none` / a parsed object).
-/

/-- Python `str.lower` on one character: ASCII plus the accented uppercase
letters appearing in the source's keyword tables. -/
def pyLowerChar (c : Char) : Char :=
  if c.isUpper then c.toLower
  else if c = 'Á' then 'á' else if c = 'É' then 'é' else if c = 'Í' then 'í'
  else if c = 'Ó' then 'ó' else if c = 'Ú' then 'ú' else if c = 'Â' then 'â'
  else if c = 'Ê' then 'ê' else if c = 'Ô' then 'ô' else if c = 'Ã' then 'ã'
  else if c = 'Õ' then 'õ' else if c = 'À' then 'à' else if c = 'Ç' then 'ç'
  else c

/-- Python `str.upper` on one character, same coverage as `pyLowerChar`. -/
def pyUpperChar (c : Char) : Char :=
  if c.isLower then c.toUpper
  else if c = 'á' then 'Á' else if c = 'é' then 'É' else if c = 'í' then 'Í'
  else if c = 'ó' then 'Ó' else if c = 'ú' then 'Ú' else if c = 'â' then 'Â'
  else if c = 'ê' then 'Ê' else if c = 'ô' then 'Ô' else if c = 'ã' then 'Ã'
  else if c = 'õ' then 'Õ' else if c = 'à' then 'À' else if c = 'ç' then 'Ç'
  else c

/-- A cased (alphabetic) character for the purposes of `str.title`. -/
def isCasedPy (c : Char) : Bool :=
  c.isAlpha ||
  (c ∈ ['á', 'é', 'í', 'ó', 'ú', 'â', 'ê', 'ô', 'ã', 'õ', 'à', 'ç',
        'Á', 'É', 'Í', 'Ó', 'Ú', 'Â', 'Ê', 'Ô', 'Ã', 'Õ', 'À', 'Ç'])

/-- Python `str.lower`. -/
def pyLower (s : String) : String := ⟨s.toList.map pyLowerChar⟩

/-- Python `str.strip` (whitespace from both ends). -/
def pyStrip (s : String) : String :=
  ⟨((s.toList.dropWhile Char.isWhitespace).reverse.dropWhile Char.isWhitespace).reverse⟩

/-- Python `str.capitalize`: first character upper-cased, the rest lower-cased. -/
def pyCapitalize (s : String) : String :=
  match s.toList with
  | [] => ""
  | c :: rest => ⟨pyUpperChar c :: rest.map pyLowerChar⟩

/-- Worker for `str.title`: the Bool records whether the previous character
was cased. -/
def pyTitleGo : Bool → List Char → List Char
  | _, [] => []
  | prevCased, c :: rest =>
    (if isCasedPy c then (if prevCased then pyLowerChar c else pyUpperChar c) else c)
      :: pyTitleGo (isCasedPy c) rest

/-- Python `str.title`. -/
def pyTitle (s : String) : String := ⟨pyTitleGo false s.toList⟩

/-- `startsWithL pat l`: `pat` is a leading segment of `l`. -/
def startsWithL : List Char → List Char → Bool
  | [], _ => true
  | _ :: _, [] => false
  | a :: as, b :: bs => (a == b) && startsWithL as bs

/-- `occursIn pat l`: `pat` occurs contiguously inside `l`. -/
def occursIn : List Char → List Char → Bool
  | pat, [] => pat.isEmpty
  | pat, c :: rest => startsWithL pat (c :: rest) || occursIn pat rest

/-- Python `sub in s` (substring containment). -/
def containsSub (s sub : String) : Bool := occursIn sub.toList s.toList

/-- Numeric value of a digit list (most significant first). -/
def digitsVal (l : List Char) : ℕ :=
  l.foldl (fun a c => a * 10 + (c.toNat - 48)) 0

/-- Value of the regex match `\d+[\.,]?\d*` starting at the head of `l`
(the head is a digit), after the source's `replace(',', '.')` and `float`. -/
def matchNumber (l : List Char) : ℚ :=
  let d1 := l.takeWhile Char.isDigit
  match l.dropWhile Char.isDigit with
  | c :: rest2 =>
    if c = '.' ∨ c = ',' then
      let d2 := rest2.takeWhile Char.isDigit
      (digitsVal d1 : ℚ) + (digitsVal d2 : ℚ) / (10 : ℚ) ^ d2.length
    else (digitsVal d1 : ℚ)
  | [] => (digitsVal d1 : ℚ)

/-- Leftmost match of `re.search(r'(\d+[\.,]?\d*)', ·)`, already parsed. -/
def findNumber : List Char → Option ℚ
  | [] => none
  | c :: rest => if c.isDigit then some (matchNumber (c :: rest)) else findNumber rest

/-- Amount extraction of `_try_local_rules`: first numeric substring of the
raw (not lower-cased) text. -/
def extractAmount (s : String) : Option ℚ := findNumber s.toList

/-- `kws` has a member occurring in `s` — the model of `re.search` on an
alternation of literal words. -/
def anyKw (kws : List String) (s : String) : Bool :=
  kws.any (fun k => containsSub s k)

/-- The `termos_complexos` alternation of `_try_local_rules` (line 89). -/
def termosComplexos : List String :=
  ["dolar", "dólar", "usd", "euro", "eur", "libra", "gbp", "bitcoin", "btc",
   "cdb", "cdi", "selic", "fii", "dividendos", "rendimento", "investi",
   "aplic", "guard", "resgat", "tesouro"]

/-- A JSON scalar as it can appear in the `amount` field of a parsed model
response: a number or a string. -/
inductive JVal where
  | num (q : ℚ)
  | str (s : String)
deriving DecidableEq, Repr

/-- The transaction dictionary flowing through the pipeline: the fields the
code reads or writes, each possibly absent (as in a Python dict). -/
structure TxData where
  amount : Option JVal := none
  category : Option String := none
  date : Option String := none
  description : Option String := none
  type : Option String := none
  source : Option String := none
deriving DecidableEq, Repr

/-- `AIManager._try_local_rules` (lines 84-126).  `now` stands for the
formatted `datetime.now(FUSO_BR)` timestamp. -/
def tryLocalRules (now text : String) : Option TxData :=
  let tl := pyLower text
  if anyKw termosComplexos tl then none
  else
    let amount := (extractAmount text).getD 0
    if amount ≤ 0 then none
    else
      let tipo :=
        if anyKw ["recebi", "ganhei", "pix", "entrada", "salário", "depósito"] tl then "Receita"
        else if anyKw ["gastei", "paguei", "compra", "saída", "uber", "ifood"] tl then "Despesa"
        else "Despesa"
      let cat :=
        if containsSub tl "uber" || containsSub tl "combustível" ||
           containsSub tl "ônibus" || containsSub tl "posto" then "Transporte"
        else if containsSub tl "ifood" || containsSub tl "restaurante" ||
           containsSub tl "mercado" || containsSub tl "padaria" ||
           containsSub tl "lanche" then "Alimentação"
        else if containsSub tl "aluguel" || containsSub tl "luz" ||
           containsSub tl "internet" || containsSub tl "condomínio" then "Moradia"
        else if containsSub tl "curso" || containsSub tl "faculdade" ||
           containsSub tl "livro" then "Educação"
        else if containsSub tl "farmácia" || containsSub tl "médico" ||
           containsSub tl "remédio" || containsSub tl "hospital" ||
           containsSub tl "dentista" then "Saúde"
        else "Outros"
      if cat = "Outros" ∧ tipo = "Despesa" then none
      else some { amount := some (.num amount), category := some cat,
                  date := some now, description := some (pyTitle text),
                  type := some tipo, source := some "Local/Regex" }

/-- Mantissa of a Python `float(...)` literal: `digits[.digits]` or `.digits`;
returns the value and the unconsumed tail. -/
def parseMant (l : List Char) : Option (ℚ × List Char) :=
  let d1 := l.takeWhile Char.isDigit
  match l.dropWhile Char.isDigit with
  | '.' :: r2 =>
    let d2 := r2.takeWhile Char.isDigit
    if d1.length = 0 ∧ d2.length = 0 then none
    else some ((digitsVal d1 : ℚ) + (digitsVal d2 : ℚ) / (10 : ℚ) ^ d2.length,
               r2.dropWhile Char.isDigit)
  | r1 => if d1.length = 0 then none else some ((digitsVal d1 : ℚ), r1)

/-- Optional exponent suffix of a Python float literal, applied to the
mantissa; everything must be consumed. -/
def parseExpPart (mant : ℚ) : List Char → Option ℚ
  | [] => some mant
  | c :: rest =>
    if c = 'e' ∨ c = 'E' then
      let (sgn, rest2) : ℤ × List Char :=
        match rest with
        | '+' :: r => (1, r)
        | '-' :: r => (-1, r)
        | r => (1, r)
      let ds := rest2.takeWhile Char.isDigit
      if ds.length = 0 ∨ rest2.dropWhile Char.isDigit ≠ [] then none
      else some (mant * (10 : ℚ) ^ (sgn * (digitsVal ds : ℤ)))
    else none

/-- Python `float(s)` on a string: surrounding whitespace, optional sign,
decimal mantissa, optional exponent.  (The special forms `inf`/`nan` and
underscore separators do not occur in this program's data and are out of
scope; on them this model, like an ordinary numeral, yields `none`.) -/
def pyFloat (s : String) : Option ℚ :=
  let l := (pyStrip s).toList
  let (sgn, l2) : ℚ × List Char :=
    match l with
    | '+' :: r => (1, r)
    | '-' :: r => (-1, r)
    | r => (1, r)
  match parseMant l2 with
  | none => none
  | some (m, rest) => (parseExpPart m rest).map (fun q => sgn * q)

/-- Case-insensitive two-way substring test of the category fix-up loop
(line 202): `c.lower() in cat_ia.lower() or cat_ia.lower() in c.lower()`. -/
def ciSubMatch (catIa c : String) : Bool :=
  containsSub (pyLower catIa) (pyLower c) || containsSub (pyLower c) (pyLower catIa)

/-- Category normalization of `_core_process` (lines 197-204). -/
def canonCategory (cats : List String) (d : TxData) : TxData :=
  let catIa := d.category.getD "Outros"
  if catIa ∈ cats then d
  else
    match cats.find? (fun c => ciSubMatch catIa c) with
    | some c => { d with category := some c }
    | none => { d with category := some "Outros" }

/-- The debit-token alternation of line 208. -/
def debitTokens : List String := ["expense", "outcome", "gasto", "saída", "debit"]

/-- The credit-token alternation of line 209. -/
def creditTokens : List String := ["income", "entry", "ganho", "entrada", "receita", "credit"]

/-- Type normalization of `_core_process` (lines 206-210). -/
def canonType (d : TxData) : TxData :=
  let t := pyLower (d.type.getD "")
  if t ∈ debitTokens then { d with type := some "Despesa" }
  else if t ∈ creditTokens then { d with type := some "Receita" }
  else { d with type := some (pyCapitalize (d.type.getD "Despesa")) }

/-- Amount coercion of `_core_process` (lines 212-213): `float(data['amount'])`
with a missing key or failed conversion collapsing to `0.0`. -/
def canonAmount (d : TxData) : TxData :=
  match d.amount with
  | some (.num q) => { d with amount := some (.num q) }
  | some (.str s) =>
    match pyFloat s with
    | some q => { d with amount := some (.num q) }
    | none => { d with amount := some (.num 0) }
  | none => { d with amount := some (.num 0) }

/-- The whole canonicalization block of `_core_process` (lines 196-213),
in source order: category, then type, then amount. -/
def canonicalize (cats : List String) (d : TxData) : TxData :=
  canonAmount (canonType (canonCategory cats d))

/-- What one model attempt produced: the call raised (with some exception
message the bare `except` discards), or it returned a response whose
`_clean_json` extraction yielded `none` (unparseable or falsy) or a parsed
object. -/
inductive ModelOutcome where
  | raise (msg : String)
  | resp (parsed : Option TxData)
deriving DecidableEq, Repr

/-- A model attempt succeeded: it returned a parseable, truthy object. -/
def isSuccess : ModelOutcome → Bool
  | .resp (some _) => true
  | _ => false

/-- The pipeline's caller-visible value: the transaction dict, or the
`{"error": ...}` dict. -/
inductive CoreResult where
  | ok (d : TxData)
  | err (msg : String)
deriving DecidableEq, Repr

/-- The fixed fallback list of line 187. -/
def modelsList : List String :=
  ["gemini-1.5-flash", "gemini-2.0-flash-exp", "gemini-1.5-pro-latest"]

/-- The model-fallback loop of `_core_process` (lines 188-217), instrumented
with the list of models actually attempted.  A raised call or an unparseable
response falls through to the next model; the first parsed truthy object is
canonicalized and returned; exhaustion yields the fixed error dict. -/
def attemptLoop (cats : List String) (env : String → ModelOutcome) :
    List String → List String × CoreResult
  | [] => ([], .err "IA indisponível. Tente novamente.")
  | m :: rest =>
    match env m with
    | .resp (some d) => ([m], .ok (canonicalize cats d))
    | _ =>
      let r := attemptLoop cats env rest
      (m :: r.1, r.2)

/-- `AIManager._core_process` (lines 143-217) for a text/audio input, with
the remote service abstracted as `env` and the attempted-model list exposed.
For text input the local rule engine is tried first (lines 150-152). -/
def coreProcess (now text : String) (isAudio : Bool) (cats : List String)
    (env : String → ModelOutcome) : List String × CoreResult :=
  if isAudio = false then
    match tryLocalRules now text with
    | some r => ([], .ok r)
    | none => attemptLoop cats env modelsList
  else attemptLoop cats env modelsList

/-- `AIManager.process_nlp` (lines 128-131): the public text entry point. -/
def process_nlp (now text : String) (cats : List String)
    (env : String → ModelOutcome) : List String × CoreResult :=
  coreProcess now text false cats env

/-- An environment in which every model call raises. -/
def envFail : String → ModelOutcome := fun _ => ModelOutcome.raise "boom"

/-- `src/utils.py` `TransactionType`. -/
inductive TransactionType where
  | INCOME | EXPENSE | INVESTMENT
deriving DecidableEq, Repr

/-- The enum's string value. -/
def TransactionType.value : TransactionType → String
  | .INCOME => "Receita"
  | .EXPENSE => "Despesa"
  | .INVESTMENT => "Investimento"

/-- `DomainValidators.normalize_type` (utils.py lines 108-113).  The Python
code first stringifies its argument; the model takes the string. -/
def normalize_type (type_str : String) : String :=
  let t := pyLower (pyStrip type_str)
  if t ∈ ["expense", "outcome", "gasto", "saída", "despesa"] then
    TransactionType.EXPENSE.value
  else if t ∈ ["income", "entry", "ganho", "entrada", "receita"] then
    TransactionType.INCOME.value
  else TransactionType.EXPENSE.value

/-- `DomainValidators.validate_amount` (utils.py lines 100-106): a
non-positive value raises, and the re-raise collapses the message to
"Valor inválido.". -/
def validate_amount (amount : ℚ) : Except String ℚ :=
  if amount ≤ 0 then .error "Valor inválido." else .ok amount

/-- `DomainValidators.validate_date` (utils.py lines 115-120) restricted to
string-or-absent inputs; `now` stands for `datetime.now()` formatting. -/
def validate_date (dateVal : Option String) (now : String) : String :=
  match dateVal with
  | none => now
  | some s => if s = "" then now else s

/-- The row handed to `TransactionRepository.insert`. -/
structure InsertRow where
  user_id : String
  date : String
  amount : ℚ
  category : String
  description : String
  type : String
deriving DecidableEq, Repr

/-- `TransactionService.register_transaction` (transaction_service.py lines
22-53) up to the repository call: the validations, and on success the row
that is persisted.  The repository itself and the cache clearing are
external effects. -/
def register_transaction (now user_id : String) (dateVal : Option String)
    (amount : ℚ) (category description type_ : String) : Except String InsertRow :=
  match validate_amount amount with
  | .error e => .error e
  | .ok cleanAmt =>
    let cleanDate := validate_date dateVal now
    let cleanType := normalize_type type_
    if description = "" ∨ description.length > 255 then
      .error "Descrição inválida (muito longa ou vazia)."
    else
      .ok { user_id := user_id, date := cleanDate, amount := cleanAmt,
            category := category, description := description, type := cleanType }

/-- The category step never touches the `type` field. -/
lemma canonCategory_type (cats : List String) (d : TxData) :
    (canonCategory cats d).type = d.type := by
  unfold canonCategory
  dsimp only
  split
  · rfl
  · split <;> rfl

/-- The category step never touches the `amount` field. -/
lemma canonCategory_amount (cats : List String) (d : TxData) :
    (canonCategory cats d).amount = d.amount := by
  unfold canonCategory
  dsimp only
  split
  · rfl
  · split <;> rfl

/-- The type step never touches the `category` field. -/
lemma canonType_category (d : TxData) : (canonType d).category = d.category := by
  unfold canonType
  dsimp only
  split
  · rfl
  · split <;> rfl

/-- The type step never touches the `amount` field. -/
lemma canonType_amount (d : TxData) : (canonType d).amount = d.amount := by
  unfold canonType
  dsimp only
  split
  · rfl
  · split <;> rfl

/-- The amount step never touches the `type` field. -/
lemma canonAmount_type (d : TxData) : (canonAmount d).type = d.type := by
  unfold canonAmount
  cases hd : d.amount with
  | none => rfl
  | some j =>
    cases j with
    | num q => rfl
    | str s => cases hp : pyFloat s <;> simp [hp]

/-- The amount step never touches the `category` field. -/
lemma canonAmount_category (d : TxData) : (canonAmount d).category = d.category := by
  unfold canonAmount
  cases hd : d.amount with
  | none => rfl
  | some j =>
    cases j with
    | num q => rfl
    | str s => cases hp : pyFloat s <;> simp [hp]

/-- After the amount step the `amount` field is always a float. -/
lemma canonAmount_num (d : TxData) : ∃ q : ℚ, (canonAmount d).amount = some (JVal.num q) := by
  unfold canonAmount
  cases hd : d.amount with
  | none => exact ⟨0, rfl⟩
  | some j =>
    cases j with
    | num q => exact ⟨q, rfl⟩
    | str s =>
      cases hp : pyFloat s with
      | none => exact ⟨0, by simp [hp]⟩
      | some q => exact ⟨q, by simp [hp]⟩

/-- A record produced by the rule engine carries a strictly positive amount. -/
lemma tryLocalRules_amount_pos (now text : String) (r : TxData)
    (h : tryLocalRules now text = some r) :
    ∃ q : ℚ, r.amount = some (JVal.num q) ∧ 0 < q := by
  simp only [tryLocalRules] at h
  split at h
  · exact absurd h (by simp)
  split at h
  · exact absurd h (by simp)
  rename_i hpos
  refine ⟨(extractAmount text).getD 0, ?_, lt_of_not_ge hpos⟩
  repeat' split at h
  all_goals first
    | (obtain rfl := Option.some_inj.mp h; rfl)
    | simp at h

/-- Every successful slow-path result is the canonicalization of some parsed
object, and at least one model was attempted. -/
lemma attemptLoop_ok (cats : List String) (env : String → ModelOutcome) :
    ∀ (ms att : List String) (d : TxData),
      attemptLoop cats env ms = (att, .ok d) →
      (∃ d0, d = canonicalize cats d0) ∧ att ≠ [] := by
  intro ms
  induction ms with
  | nil =>
    intro att d h
    simp only [attemptLoop, Prod.mk.injEq] at h
    exact absurd h.2 (by simp)
  | cons m rest ih =>
    intro att d h
    unfold attemptLoop at h
    cases he : env m with
    | raise msg =>
      rw [he] at h
      simp only [Prod.mk.injEq] at h
      obtain ⟨h1, h2⟩ := h
      have := ih (attemptLoop cats env rest).1 d (by rw [← h2])
      exact ⟨this.1, by rw [← h1]; simp⟩
    | resp p =>
      cases p with
      | none =>
        rw [he] at h
        simp only [Prod.mk.injEq] at h
        obtain ⟨h1, h2⟩ := h
        have := ih (attemptLoop cats env rest).1 d (by rw [← h2])
        exact ⟨this.1, by rw [← h1]; simp⟩
      | some d0 =>
        rw [he] at h
        simp only [Prod.mk.injEq, CoreResult.ok.injEq] at h
        exact ⟨⟨d0, h.2.symm⟩, by rw [← h.1]; simp⟩

/-- If every model in the list fails, the loop attempts them all and returns
the fixed error dict. -/
lemma attemptLoop_all_fail (cats : List String) (env : String → ModelOutcome) :
    ∀ ms : List String, (∀ m ∈ ms, isSuccess (env m) = false) →
      attemptLoop cats env ms = (ms, .err "IA indisponível. Tente novamente.") := by
  intro ms
  induction ms with
  | nil => intro _; rfl
  | cons m rest ih =>
    intro hfail
    have hm : isSuccess (env m) = false := hfail m (by simp)
    unfold attemptLoop
    cases he : env m with
    | raise msg =>
      rw [ih (fun x hx => hfail x (by simp [hx]))]
    | resp p =>
      cases p with
      | none => rw [ih (fun x hx => hfail x (by simp [hx]))]
      | some d0 => rw [he] at hm; exact absurd hm (by simp [isSuccess])

/-- If the first `n` models fail and model `n` succeeds with parsed object
`d`, the loop attempts exactly the first `n+1` models in order and returns
the canonicalization of `d`. -/
lemma attemptLoop_first (cats : List String) (env : String → ModelOutcome) :
    ∀ (ms : List String) (n : ℕ), n < ms.length →
      (∀ i, i < n → isSuccess (env (ms.getD i "")) = false) →
      ∀ d : TxData, env (ms.getD n "") = .resp (some d) →
      attemptLoop cats env ms = (ms.take (n + 1), .ok (canonicalize cats d)) := by
  intro ms
  induction ms with
  | nil => intro n hn; exact absurd hn (by simp)
  | cons m rest ih =>
    intro n hn hfail d hsucc
    cases n with
    | zero =>
      have : env m = .resp (some d) := hsucc
      unfold attemptLoop
      rw [this]
      rfl
    | succ k =>
      have hm : isSuccess (env m) = false := hfail 0 (by omega)
      have hrest :
          attemptLoop cats env rest = (rest.take (k + 1), .ok (canonicalize cats d)) := by
        refine ih k (by simpa using hn) (fun i hi => ?_) d hsucc
        exact hfail (i + 1) (by omega)
      unfold attemptLoop
      cases he : env m with
      | raise msg => rw [hrest]; rfl
      | resp p =>
        cases p with
        | none => rw [hrest]; rfl
        | some d0 => rw [he] at hm; exact absurd hm (by simp [isSuccess])

/-- C1 (counterexample): the canonicalization of `_core_process` does NOT
coerce every unrecognized kind token to 'Despesa' — an unknown token such
as "transfer" is passed through capitalized, leaving a third value in the
kind field. -/
theorem c1_counterexample :
    (canonicalize ["Alimentação"]
      { amount := some (JVal.num 5), category := some "Alimentação",
        type := some "transfer" }).type = some "Transfer"
    ∧ "Transfer" ≠ "Despesa" ∧ "Transfer" ≠ "Receita" := by decide

/-- C1 (amended): after canonicalization, a kind token in the debit list
maps to 'Despesa' and one in the credit list to 'Receita' (both
case-insensitively); any other token is passed through with only its first
letter upper-cased and the rest lower-cased, instead of defaulting to
'Despesa'. -/
theorem c1_kind_canonicalization (cats : List String) (d : TxData) (t : String)
    (h : d.type = some t) :
    (canonicalize cats d).type =
      some (if pyLower t ∈ debitTokens then "Despesa"
            else if pyLower t ∈ creditTokens then "Receita"
            else pyCapitalize t) := by
  unfold canonicalize
  rw [canonAmount_type]
  have h1 : (canonCategory cats d).type = some t := by rw [canonCategory_type, h]
  unfold canonType
  rw [h1]
  dsimp only [Option.getD_some]
  by_cases hd : pyLower t ∈ debitTokens
  · simp [hd]
  · by_cases hcr : pyLower t ∈ creditTokens
    · simp [hd, hcr]
    · simp [hd, hcr]

/-- C1 witness: the debit token "EXPENSE" is mapped to 'Despesa'. -/
theorem c1_witness :
    (canonicalize ["Outros"]
      { amount := some (JVal.num 5), category := some "Outros",
        type := some "EXPENSE" }).type = some "Despesa" := by
  have h := c1_kind_canonicalization ["Outros"]
    { amount := some (JVal.num 5), category := some "Outros", type := some "EXPENSE" }
    "EXPENSE" rfl
  rw [h]
  decide

/-- C2 (counterexample): a slow-path record whose parsed object has no
`amount` field is returned with `amount = 0.0`, which is not `> 0` — the
strict-positivity postcondition fails on the remote path. -/
theorem c2_counterexample :
    (coreProcess "2024-01-01" "qq" false ["Outros"]
        (fun _ => ModelOutcome.resp
          (some { category := some "Outros", type := some "expense",
                  description := some "x" }))).2 =
      CoreResult.ok { amount := some (JVal.num 0), category := some "Outros",
                      description := some "x", type := some "Despesa" }
    ∧ ¬ (0 : ℚ) < 0 := by decide

/-- C2 (amended): every non-error record carries a float amount; strict
positivity of the amount holds for the Rule-Engine fast path (no model
attempted), while the slow path only guarantees a float, which can be zero
or negative when the model's amount is missing, unparseable, or negative. -/
theorem c2_amount_positive_amended (now text : String) (isAudio : Bool)
    (cats : List String) (env : String → ModelOutcome) (att : List String)
    (d : TxData) (h : coreProcess now text isAudio cats env = (att, .ok d)) :
    ∃ q : ℚ, d.amount = some (JVal.num q) ∧ (att = [] → 0 < q) := by
  unfold coreProcess at h
  by_cases ha : isAudio = false
  · rw [if_pos ha] at h
    cases hl : tryLocalRules now text with
    | some r =>
      rw [hl] at h
      simp only [Prod.mk.injEq, CoreResult.ok.injEq] at h
      obtain ⟨h1, h2⟩ := h
      obtain ⟨q, hq, hpos⟩ := tryLocalRules_amount_pos now text r hl
      exact ⟨q, by rw [← h2]; exact hq, fun _ => hpos⟩
    | none =>
      rw [hl] at h
      obtain ⟨⟨d0, hd0⟩, hne⟩ := attemptLoop_ok cats env modelsList att d h
      obtain ⟨q, hq⟩ := canonAmount_num (canonType (canonCategory cats d0))
      exact ⟨q, by rw [hd0]; exact hq, fun hcon => absurd hcon hne⟩
  · rw [if_neg ha] at h
    obtain ⟨⟨d0, hd0⟩, hne⟩ := attemptLoop_ok cats env modelsList att d h
    obtain ⟨q, hq⟩ := canonAmount_num (canonType (canonCategory cats d0))
    exact ⟨q, by rw [hd0]; exact hq, fun hcon => absurd hcon hne⟩

/-- C2 witness: the fast-path record for "Gastei 50 no Uber" has a float
amount which is strictly positive. -/
theorem c2_witness :
    ∃ q : ℚ,
      ({ amount := some (JVal.num 50), category := some "Transporte",
         date := some "2024-01-01", description := some "Gastei 50 No Uber",
         type := some "Despesa", source := some "Local/Regex" } : TxData).amount =
        some (JVal.num q) ∧ (([] : List String) = [] → 0 < q) :=
  c2_amount_positive_amended "2024-01-01" "Gastei 50 no Uber" false ["Outros"]
    envFail []
    { amount := some (JVal.num 50), category := some "Transporte",
      date := some "2024-01-01", description := some "Gastei 50 No Uber",
      type := some "Despesa", source := some "Local/Regex" }
    (by decide)

/-- C3 (counterexample): when every model raises "ECONNRESET", the adapter
returns the fixed error string, which does not carry the underlying error's
message. -/
theorem c3_counterexample :
    attemptLoop ["Outros"] (fun _ => ModelOutcome.raise "ECONNRESET") modelsList =
      (modelsList, CoreResult.err "IA indisponível. Tente novamente.")
    ∧ containsSub "IA indisponível. Tente novamente." "ECONNRESET" = false := by decide

/-- C3 (amended): whenever every model in the fallback list fails, the
adapter returns the typed failure dict — no exception reaches the caller —
but it carries the fixed message "IA indisponível. Tente novamente.", not
the most recent underlying error's message (the bare `except` discards it). -/
theorem c3_exhaustion_amended (cats : List String) (env : String → ModelOutcome)
    (h : ∀ m ∈ modelsList, isSuccess (env m) = false) :
    attemptLoop cats env modelsList =
      (modelsList, .err "IA indisponível. Tente novamente.") :=
  attemptLoop_all_fail cats env modelsList h

/-- C3 witness: all three models raising yields the fixed error dict. -/
theorem c3_witness :
    attemptLoop ["Outros"] envFail modelsList =
      (modelsList, CoreResult.err "IA indisponível. Tente novamente.") :=
  c3_exhaustion_amended ["Outros"] envFail (fun _ _ => rfl)

/-- C4: if the first `n` models of the fixed fallback list fail (raise or
unparseable response) and model `n` succeeds with parsed object `d`, the
adapter attempts exactly the first `n+1` models of
['gemini-1.5-flash', 'gemini-2.0-flash-exp', 'gemini-1.5-pro-latest'] in
declared order and returns the canonicalization of `d`, invoking no later
model. -/
theorem c4_fallback_order (cats : List String) (env : String → ModelOutcome)
    (n : ℕ) (hn : n < modelsList.length)
    (hfail : ∀ i, i < n → isSuccess (env (modelsList.getD i "")) = false)
    (d : TxData) (hsucc : env (modelsList.getD n "") = .resp (some d)) :
    attemptLoop cats env modelsList =
      (modelsList.take (n + 1), .ok (canonicalize cats d)) :=
  attemptLoop_first cats env modelsList n hn hfail d hsucc

/-- C4 witness: first model raises, second succeeds — exactly the first two
models are attempted, in order. -/
theorem c4_witness :
    attemptLoop ["Outros"]
      (fun m => if m = "gemini-2.0-flash-exp"
                then ModelOutcome.resp (some { type := some "income" })
                else ModelOutcome.raise "err") modelsList =
      (modelsList.take 2,
       CoreResult.ok (canonicalize ["Outros"] { type := some "income" })) :=
  c4_fallback_order ["Outros"]
    (fun m => if m = "gemini-2.0-flash-exp"
              then ModelOutcome.resp (some { type := some "income" })
              else ModelOutcome.raise "err")
    1 (by decide)
    (by
      intro i hi
      have h0 : i = 0 := by omega
      subst h0
      decide)
    { type := some "income" } (by decide)

/-- C5: for a non-audio text input on which the rule engine yields a record,
the public entry point returns that record with no model attempted; for
audio input the result is exactly the slow path, never consulting the rule
engine. -/
theorem c5_fast_path (now text : String) (cats : List String)
    (env : String → ModelOutcome) (r : TxData)
    (h : tryLocalRules now text = some r) :
    process_nlp now text cats env = ([], .ok r)
    ∧ ∀ (t2 : String) (cats2 : List String) (env2 : String → ModelOutcome),
        coreProcess now t2 true cats2 env2 = attemptLoop cats2 env2 modelsList := by
  constructor
  · simp [process_nlp, coreProcess, h]
  · intro t2 cats2 env2
    rfl

/-- C5 witness: "Gastei 50 no Uber" is classified by the rule engine with no
model attempt, and an audio call goes to the fallback loop. -/
theorem c5_witness :
    process_nlp "2024-01-01" "Gastei 50 no Uber" ["Outros"] envFail =
      ([], CoreResult.ok
        { amount := some (JVal.num 50), category := some "Transporte",
          date := some "2024-01-01", description := some "Gastei 50 No Uber",
          type := some "Despesa", source := some "Local/Regex" })
    ∧ coreProcess "2024-01-01" "zz" true ["Outros"] envFail =
        attemptLoop ["Outros"] envFail modelsList :=
  ⟨(c5_fast_path "2024-01-01" "Gastei 50 no Uber" ["Outros"] envFail
      { amount := some (JVal.num 50), category := some "Transporte",
        date := some "2024-01-01", description := some "Gastei 50 No Uber",
        type := some "Despesa", source := some "Local/Regex" } (by decide)).1,
   (c5_fast_path "2024-01-01" "Gastei 50 no Uber" ["Outros"] envFail
      { amount := some (JVal.num 50), category := some "Transporte",
        date := some "2024-01-01", description := some "Gastei 50 No Uber",
        type := some "Despesa", source := some "Local/Regex" } (by decide)).2
     "zz" ["Outros"] envFail⟩

/-- C6: any input whose lower-cased text contains a member of the fixed
foreign-currency/investment keyword set makes the rule engine decline
(return its sentinel) before attempting anything. -/
theorem c6_complex_vocabulary_decline (now text kw : String)
    (hkw : kw ∈ termosComplexos) (hsub : containsSub (pyLower text) kw = true) :
    tryLocalRules now text = none := by
  have hany : anyKw termosComplexos (pyLower text) = true := by
    unfold anyKw
    rw [List.any_eq_true]
    exact ⟨kw, hkw, hsub⟩
  simp [tryLocalRules, hany]

/-- C6 witness: "Comprei 100 dólares" contains the keyword "dólar", so the
rule engine declines. -/
theorem c6_witness : tryLocalRules "2024-01-01" "Comprei 100 dólares" = none :=
  c6_complex_vocabulary_decline "2024-01-01" "Comprei 100 dólares" "dólar"
    (by decide) (by decide)

/-- C7: with the reserved category "Outros" present in the allowed list (as
`get_categories` always guarantees, since `CATEGORIAS_BASE` contains it): a
returned category that is exactly allowed passes through unchanged; an
unallowed one is replaced by the first allowed category matching
case-insensitively as a substring in either direction; with no match it is
coerced to "Outros"; and the normalized category is always a member of the
allowed list. -/
theorem c7_category_normalization (cats : List String) (d : TxData) (c : String)
    (hc : d.category = some c) (hout : "Outros" ∈ cats) :
    (c ∈ cats → (canonicalize cats d).category = some c)
    ∧ (c ∉ cats → ∀ a, cats.find? (fun x => ciSubMatch c x) = some a →
        (canonicalize cats d).category = some a ∧ a ∈ cats)
    ∧ (c ∉ cats → cats.find? (fun x => ciSubMatch c x) = none →
        (canonicalize cats d).category = some "Outros")
    ∧ ∃ c2, (canonicalize cats d).category = some c2 ∧ c2 ∈ cats := by
  have hbase : (canonicalize cats d).category = (canonCategory cats d).category := by
    unfold canonicalize
    rw [canonAmount_category, canonType_category]
  have key : (canonCategory cats d).category =
      (if c ∈ cats then some c
       else match cats.find? (fun x => ciSubMatch c x) with
            | some a => some a
            | none => some "Outros") := by
    unfold canonCategory
    rw [hc]
    dsimp only [Option.getD_some]
    by_cases hm : c ∈ cats
    · rw [if_pos hm, if_pos hm, hc]
    · rw [if_neg hm, if_neg hm]
      cases hf : cats.find? (fun x => ciSubMatch c x) <;> rfl
  refine ⟨?_, ?_, ?_, ?_⟩
  · intro hm
    rw [hbase, key, if_pos hm]
  · intro hm a hf
    refine ⟨by rw [hbase, key, if_neg hm, hf], List.mem_of_find?_eq_some hf⟩
  · intro hm hf
    rw [hbase, key, if_neg hm, hf]
  · by_cases hm : c ∈ cats
    · exact ⟨c, by rw [hbase, key, if_pos hm], hm⟩
    · cases hf : cats.find? (fun x => ciSubMatch c x) with
      | some a =>
        exact ⟨a, by rw [hbase, key, if_neg hm, hf], List.mem_of_find?_eq_some hf⟩
      | none => exact ⟨"Outros", by rw [hbase, key, if_neg hm, hf], hout⟩

/-- C7 witness: the unallowed category "Alimentação e bebidas" is corrected
to the allowed "Alimentação" by the substring match. -/
theorem c7_witness :
    (canonicalize ["Alimentação", "Outros"]
      { amount := some (JVal.num 3), category := some "Alimentação e bebidas",
        type := some "expense" }).category = some "Alimentação"
    ∧ "Alimentação" ∈ ["Alimentação", "Outros"] := by
  have h := (c7_category_normalization ["Alimentação", "Outros"]
    { amount := some (JVal.num 3), category := some "Alimentação e bebidas",
      type := some "expense" }
    "Alimentação e bebidas" rfl (by decide)).2.1 (by decide) "Alimentação" (by decide)
  exact ⟨h.1, by decide⟩

/-- C8 (counterexample): the empty text input is NOT rejected before
processing — the rule engine is consulted and declines, all three remote
models are attempted, and the result is the generic unavailable error, not
an EmptyInput rejection. -/
theorem c8_counterexample :
    coreProcess "2024-01-01" "" false ["Outros"] envFail =
      (modelsList, CoreResult.err "IA indisponível. Tente novamente.")
    ∧ modelsList ≠ [] := by decide

/-- C8 (amended): the pipeline has no empty-input guard: for the empty text
string the rule engine declines (no positive amount) and the pipeline
always proceeds to the remote fallback loop; no EmptyInput error value
exists in the code. -/
theorem c8_empty_input_amended (now : String) (cats : List String)
    (env : String → ModelOutcome) :
    coreProcess now "" false cats env = attemptLoop cats env modelsList := by
  have h : tryLocalRules now "" = none := rfl
  simp [coreProcess, h]

/-- C9: canonicalization is idempotent on an already-canonical record — kind
exactly 'Receita' or 'Despesa', category a member of the allowed list,
amount already a float: applying the canonicalization step returns the
record unchanged, bit for bit. -/
theorem c9_canonicalization_idempotent (cats : List String) (d : TxData)
    (t c : String) (q : ℚ)
    (ht : d.type = some t) (htv : t = "Receita" ∨ t = "Despesa")
    (hc : d.category = some c) (hcv : c ∈ cats)
    (ha : d.amount = some (JVal.num q)) :
    canonicalize cats d = d := by
  obtain ⟨am, cat, dt, ds, ty, sr⟩ := d
  dsimp only at ht hc ha
  subst ht
  subst hc
  subst ha
  have h1 : canonCategory cats
      ⟨some (JVal.num q), some c, dt, ds, some t, sr⟩ =
      ⟨some (JVal.num q), some c, dt, ds, some t, sr⟩ := by
    unfold canonCategory
    dsimp only [Option.getD_some]
    rw [if_pos hcv]
  have h3 : canonAmount
      ⟨some (JVal.num q), some c, dt, ds, some t, sr⟩ =
      ⟨some (JVal.num q), some c, dt, ds, some t, sr⟩ := by
    unfold canonAmount
    rfl
  unfold canonicalize
  rw [h1]
  rcases htv with rfl | rfl
  · have h2 : canonType
        ⟨some (JVal.num q), some c, dt, ds, some "Receita", sr⟩ =
        ⟨some (JVal.num q), some c, dt, ds, some "Receita", sr⟩ := by
      unfold canonType
      dsimp only [Option.getD_some]
      rw [if_neg (by decide), if_pos (by decide)]
    rw [h2, h3]
  · have h2 : canonType
        ⟨some (JVal.num q), some c, dt, ds, some "Despesa", sr⟩ =
        ⟨some (JVal.num q), some c, dt, ds, some "Despesa", sr⟩ := by
      unfold canonType
      dsimp only [Option.getD_some]
      rw [if_neg (by decide), if_neg (by decide),
        show pyCapitalize "Despesa" = "Despesa" from by decide]
    rw [h2, h3]

/-- C9 witness: a concrete already-canonical record is a fixed point of
canonicalization. -/
theorem c9_witness :
    canonicalize ["Outros"]
      { amount := some (JVal.num 10), category := some "Outros",
        date := some "2024-01-01", description := some "x",
        type := some "Receita", source := none } =
      { amount := some (JVal.num 10), category := some "Outros",
        date := some "2024-01-01", description := some "x",
        type := some "Receita", source := none } :=
  c9_canonicalization_idempotent ["Outros"]
    { amount := some (JVal.num 10), category := some "Outros",
      date := some "2024-01-01", description := some "x",
      type := some "Receita", source := none }
    "Receita" "Outros" 10 rfl (Or.inl rfl) rfl (by decide) rfl

/-- C10: `DomainValidators.normalize_type` always yields exactly 'Despesa'
or 'Receita', with the expense tokens mapping to 'Despesa', the income
tokens to 'Receita', everything else (including 'credit' and 'debit', which
appear in neither list here) defaulting to 'Despesa'; consequently every
row persisted through `register_transaction` carries
`type = normalize_type input`, a member of the closed two-value set. -/
theorem c10_normalize_type_closed (s : String) :
    (normalize_type s = "Despesa" ∨ normalize_type s = "Receita")
    ∧ (pyLower (pyStrip s) ∈ ["expense", "outcome", "gasto", "saída", "despesa"] →
        normalize_type s = "Despesa")
    ∧ (pyLower (pyStrip s) ∈ ["income", "entry", "ganho", "entrada", "receita"] →
        normalize_type s = "Receita")
    ∧ (pyLower (pyStrip s) ∉ ["expense", "outcome", "gasto", "saída", "despesa"] →
        pyLower (pyStrip s) ∉ ["income", "entry", "ganho", "entrada", "receita"] →
        normalize_type s = "Despesa")
    ∧ ∀ (now uid : String) (dv : Option String) (amt : ℚ) (cat ds : String)
        (row : InsertRow),
        register_transaction now uid dv amt cat ds s = .ok row →
        row.type = normalize_type s := by
  refine ⟨?_, ?_, ?_, ?_, ?_⟩
  · by_cases h1 : pyLower (pyStrip s) ∈ ["expense", "outcome", "gasto", "saída", "despesa"]
    · exact Or.inl (by simp [normalize_type, TransactionType.value, h1])
    · by_cases h2 : pyLower (pyStrip s) ∈ ["income", "entry", "ganho", "entrada", "receita"]
      · exact Or.inr (by simp [normalize_type, TransactionType.value, h1, h2])
      · exact Or.inl (by simp [normalize_type, TransactionType.value, h1, h2])
  · intro h1
    simp [normalize_type, TransactionType.value, h1]
  · intro h2
    by_cases h1 : pyLower (pyStrip s) ∈ ["expense", "outcome", "gasto", "saída", "despesa"]
    · -- impossible: the expense and income token lists are disjoint
      exfalso
      simp only [List.mem_cons, List.not_mem_nil, or_false] at h1
      rcases h1 with h1 | h1 | h1 | h1 | h1 <;>
        (rw [h1] at h2; exact absurd h2 (by decide))
    · simp [normalize_type, TransactionType.value, h1, h2]
  · intro h1 h2
    simp [normalize_type, TransactionType.value, h1, h2]
  · intro now uid dv amt cat ds row h
    unfold register_transaction at h
    cases hv : validate_amount amt with
    | error e => rw [hv] at h; exact absurd h (by simp)
    | ok a =>
      rw [hv] at h
      dsimp only at h
      split at h
      · exact absurd h (by simp)
      · obtain rfl := Except.ok.inj h
        rfl

/-- C10 witness: 'credit' and 'debit' both normalize to 'Despesa' at this
layer, an income token normalizes to 'Receita', and the row persisted for
type 'debit' carries the normalized value. -/
theorem c10_witness :
    normalize_type "credit" = "Despesa"
    ∧ normalize_type " ENTRADA " = "Receita"
    ∧ ({ user_id := "u", date := "n", amount := 5, category := "Outros",
         description := "d", type := "Despesa" } : InsertRow).type =
        normalize_type "debit" :=
  ⟨(c10_normalize_type_closed "credit").2.2.2.1 (by decide) (by decide),
   (c10_normalize_type_closed " ENTRADA ").2.2.1 (by decide),
   (c10_normalize_type_closed "debit").2.2.2.2 "n" "u" none 5 "Outros" "d"
     { user_id := "u", date := "n", amount := 5, category := "Outros",
       description := "d", type := "Despesa" } (by rfl)⟩
